import Mathlib

/-!
Verification of the Live Production Coordination Engine of sportscast-live.

The definitions below are a shallow embedding of the TypeScript sources:
database rows become Lean structures, each Supabase edge-function action
becomes a pure function on an explicit table (a list of rows), and the
director dashboard's camera-switch routine becomes a function that also
returns the ordered list of externally visible steps it performs.
External HTTP calls and database errors are made explicit boolean inputs.
-/

namespace Sportscast

/-- A row of the `cameras` table, with the fields the coordination engine
reads and writes (`src/supabase/migrations`, used by `camera-status`,
`livekit-webhook` and the director dashboard). Timestamps are epoch
milliseconds. -/
structure Camera where
  id : String
  event_id : String
  device_label : String
  is_live : Bool
  is_active : Bool
  updated_at : Nat
deriving Repr, DecidableEq

/-- A row of the `events` table, restricted to the fields the engine
touches (`status`, the stored egress id `mux_stream_id`, `updated_at`). -/
structure Event where
  id : String
  status : String
  mux_stream_id : Option String
  updated_at : Nat
deriving Repr, DecidableEq

/-! ## camera-status edge function (src/supabase/functions/camera-status/index.ts) -/

/-- Action `heartbeat`: `update({ is_live: true, updated_at: now }).eq('id', cameraId)`. -/
def heartbeat (cameraId : String) (now : Nat) (cams : List Camera) : List Camera :=
  cams.map fun c =>
    if c.id = cameraId then { c with is_live := true, updated_at := now } else c

/-- Action `disconnect`: `update({ is_live: false, is_active: false, updated_at: now }).eq('id', cameraId)`. -/
def disconnect (cameraId : String) (now : Nat) (cams : List Camera) : List Camera :=
  cams.map fun c =>
    if c.id = cameraId then
      { c with is_live := false, is_active := false, updated_at := now }
    else c

/-- The cleanup threshold of the `cleanup-stale` action: 2 minutes in
milliseconds (`Date.now() - 2 * 60 * 1000`). -/
def staleWindowMs : Nat := 2 * 60 * 1000

/-- Action `cleanup-stale`:
`update({ is_live: false, is_active: false }).eq('event_id', eventId).lt('updated_at', twoMinutesAgo).eq('is_live', true)`.
Only rows currently marked `is_live = true` are touched. -/
def cleanupStale (eventId : String) (now : Nat) (cams : List Camera) : List Camera :=
  cams.map fun c =>
    if c.event_id = eventId ∧ c.updated_at < now - staleWindowMs ∧ c.is_live = true then
      { c with is_live := false, is_active := false }
    else c

/-! ## String helpers used by the webhook and dashboard code

The TypeScript sources use `String.prototype.replace` with a plain-string
pattern (which replaces only the first occurrence), `replace(/_/g, ...)`
and `replace(/\s+/g, ...)` (global regex replaces), and Postgres
`ilike '%pat%'` (case-insensitive substring). -/

/-- Remove the first occurrence of `pat` from a character list
(JS `s.replace(pat, '')` with a string pattern). -/
def removeFirstAux (pat : List Char) : List Char → List Char
  | [] => []
  | c :: rest =>
    if pat.isPrefixOf (c :: rest) then (c :: rest).drop pat.length
    else c :: removeFirstAux pat rest

/-- Remove the first occurrence of `pat` from `s` (JS `s.replace(pat, '')`). -/
def removeFirst (s pat : String) : String :=
  String.mk (removeFirstAux pat.toList s.toList)

/-- Returns `true` when `pat` occurs as a contiguous substring of `hay`. -/
def containsSub (pat : List Char) : List Char → Bool
  | [] => pat.isEmpty
  | c :: rest => pat.isPrefixOf (c :: rest) || containsSub pat rest

/-- Postgres `col ilike '%pat%'`: case-insensitive substring match. -/
def ilikeAnywhere (col pat : String) : Bool :=
  containsSub (pat.toList.map Char.toLower) (col.toList.map Char.toLower)

/-- JS `s.startsWith(pat)`. -/
def strStartsWith (s pat : String) : Bool :=
  pat.toList.isPrefixOf s.toList

/-- JS `event.room.name.replace('event_', '')`: the event id recovered from a
LiveKit room name. -/
def roomEventId (roomName : String) : String :=
  removeFirst roomName "event_"

/-- The device label recovered from a camera participant identity:
`identity.replace('camera_', '').replace(/_/g, ' ')`. -/
def identityDeviceLabel (identity : String) : String :=
  String.mk ((removeFirst identity "camera_").toList.map
    fun ch => if ch = '_' then ' ' else ch)

/-! ## livekit-webhook edge function (src/supabase/functions/livekit-webhook/index.ts)

Each handler is a function on the database state. The `supabase` update
calls filter cameras with `.eq('event_id', eventId).ilike('device_label', pat)`. -/

/-- The events and cameras tables as seen by the webhook handlers. -/
structure DbState where
  events : List Event
  cameras : List Camera
deriving Repr, DecidableEq

/-- The camera filter used by the webhook handlers:
`.eq('event_id', eventId).ilike('device_label', '%deviceLabel%')`. -/
def webhookCamMatch (eventId deviceLabel : String) (c : Camera) : Bool :=
  c.event_id = eventId && ilikeAnywhere c.device_label deviceLabel

/-- Handler `handleRoomStarted`: sets the event status to `live`. -/
def handleRoomStarted (roomName : String) (now : Nat) (st : DbState) : DbState :=
  let eventId := roomEventId roomName
  { st with events := st.events.map fun e =>
      if e.id = eventId then { e with status := "live", updated_at := now } else e }

/-- Handler `handleRoomFinished`: sets the event status to `ended` and marks every
camera of the event `is_live = false, is_active = false`. -/
def handleRoomFinished (roomName : String) (now : Nat) (st : DbState) : DbState :=
  let eventId := roomEventId roomName
  { events := st.events.map fun e =>
      if e.id = eventId then { e with status := "ended", updated_at := now } else e,
    cameras := st.cameras.map fun c =>
      if c.event_id = eventId then
        { c with is_live := false, is_active := false, updated_at := now }
      else c }

/-- Handler `handleParticipantJoined`: for a `camera_` participant, marks matching
cameras `is_live = true`. -/
def handleParticipantJoined (identity roomName : String) (now : Nat) (st : DbState) : DbState :=
  if strStartsWith identity "camera_" then
    let eventId := roomEventId roomName
    let deviceLabel := identityDeviceLabel identity
    { st with cameras := st.cameras.map fun c =>
        if webhookCamMatch eventId deviceLabel c then
          { c with is_live := true, updated_at := now }
        else c }
  else st

/-- Handler `handleParticipantLeft`: for a `camera_` participant, marks matching
cameras `is_live = false, is_active = false`. -/
def handleParticipantLeft (identity roomName : String) (now : Nat) (st : DbState) : DbState :=
  if strStartsWith identity "camera_" then
    let eventId := roomEventId roomName
    let deviceLabel := identityDeviceLabel identity
    { st with cameras := st.cameras.map fun c =>
        if webhookCamMatch eventId deviceLabel c then
          { c with is_live := false, is_active := false, updated_at := now }
        else c }
  else st

/-- Handler `handleEgressStarted`: sets the event status to `live`. -/
def handleEgressStarted (roomName : String) (now : Nat) (st : DbState) : DbState :=
  let eventId := roomEventId roomName
  { st with events := st.events.map fun e =>
      if e.id = eventId then { e with status := "live", updated_at := now } else e }

/-- Handler `handleEgressEnded`: sets the event status to `ended`. -/
def handleEgressEnded (roomName : String) (now : Nat) (st : DbState) : DbState :=
  let eventId := roomEventId roomName
  { st with events := st.events.map fun e =>
      if e.id = eventId then { e with status := "ended", updated_at := now } else e }

/-- Handler `handleTrackPublished`: for a published video track of a `camera_`
participant, marks matching cameras `is_live = true`. -/
def handleTrackPublished (trackType identity roomName : String) (now : Nat)
    (st : DbState) : DbState :=
  if trackType = "video" && strStartsWith identity "camera_" then
    let eventId := roomEventId roomName
    let deviceLabel := identityDeviceLabel identity
    { st with cameras := st.cameras.map fun c =>
        if webhookCamMatch eventId deviceLabel c then
          { c with is_live := true, updated_at := now }
        else c }
  else st

/-- Handler `handleTrackUnpublished`: for an unpublished video track of a `camera_`
participant, marks matching cameras `is_live = false` (and only touches
`updated_at` besides; `is_active` is not written). -/
def handleTrackUnpublished (trackType identity roomName : String) (now : Nat)
    (st : DbState) : DbState :=
  if trackType = "video" && strStartsWith identity "camera_" then
    let eventId := roomEventId roomName
    let deviceLabel := identityDeviceLabel identity
    { st with cameras := st.cameras.map fun c =>
        if webhookCamMatch eventId deviceLabel c then
          { c with is_live := false, updated_at := now }
        else c }
  else st

/-! ## Director dashboard: setActiveCamera (src/unnamed/part_002)

`setActiveCamera` (1) sets local state, (2) awaits `sendDataMessage` with a
`layout_update` control message on the LiveKit data channel, (3) when a
stream is running, invokes `livekit-egress` with action `update_layout`
inside its own try/catch whose catch only logs a warning, (4) looks up the
camera row whose normalized label matches the participant identity and, if
found, deactivates all cameras of the event and activates the found one,
then invokes the `switch-camera` logging function, and (5) sets the
selected camera. We model the routine as a function returning both the
ordered list of steps performed and the resulting cameras table. -/

/-- JS `cam.device_label.toLowerCase().replace(/\s+/g, '_')`: lowercase and
collapse each maximal whitespace run to a single underscore. The `prevWs`
flag records whether the previous character belonged to a whitespace run. -/
def collapseWsAux : Bool → List Char → List Char
  | _, [] => []
  | prevWs, c :: rest =>
    if c.isWhitespace then
      if prevWs then collapseWsAux true rest
      else '_' :: collapseWsAux true rest
    else c :: collapseWsAux false rest

/-- The label normalization used to match a camera row to a LiveKit
participant identity. -/
def normalizeLabel (label : String) : String :=
  String.mk (collapseWsAux false (label.toList.map Char.toLower))

/-- JS `cameras.find(cam => normalize(cam.device_label) === identity.replace('camera_', ''))`. -/
def findCameraRecord (identity : String) (cams : List Camera) : Option Camera :=
  cams.find? fun cam => normalizeLabel cam.device_label = removeFirst identity "camera_"

/-- One externally visible step of `setActiveCamera`, in program order. -/
inductive Step where
  | setLocalActive (identity : String)
  | fanoutLayoutUpdate (identity : String)
  | bridgeUpdateLayout (identity : String)
  | warnLayoutUpdateFailed
  | dbDeactivateAll (eventId : String)
  | dbActivateCamera (cameraId : String)
  | logSwitchCamera (cameraId : String)
  | setSelectedCamera (identity : String)
deriving Repr, DecidableEq

/-- Query `update({ is_active: false }).eq('event_id', eventId)`. -/
def deactivateAll (eventId : String) (cams : List Camera) : List Camera :=
  cams.map fun c => if c.event_id = eventId then { c with is_active := false } else c

/-- Query `update({ is_active: true }).eq('id', cameraId)`. -/
def activateCamera (cameraId : String) (cams : List Camera) : List Camera :=
  cams.map fun c => if c.id = cameraId then { c with is_active := true } else c

/-- The `setActiveCamera` routine of the director dashboard. `streaming`
is the dashboard's streaming flag guarding the egress layout update;
`bridgeFails` tells whether that `livekit-egress` invocation throws (it is
caught locally and only logged as a warning). Returns the ordered steps
and the final cameras table. -/
def setActiveCamera (eventId identity : String) (streaming bridgeFails : Bool)
    (cams : List Camera) : List Step × List Camera :=
  let pre := [Step.setLocalActive identity, Step.fanoutLayoutUpdate identity]
  let pre := pre ++
    (if streaming then
      Step.bridgeUpdateLayout identity ::
        (if bridgeFails then [Step.warnLayoutUpdateFailed] else [])
    else [])
  match findCameraRecord identity cams with
  | some rec =>
    (pre ++ [Step.dbDeactivateAll eventId, Step.dbActivateCamera rec.id,
             Step.logSwitchCamera rec.id, Step.setSelectedCamera identity],
     activateCamera rec.id (deactivateAll eventId cams))
  | none =>
    (pre ++ [Step.setSelectedCamera identity], cams)

/-- Index of the first step satisfying `p`, in program order. -/
def firstIdx (p : Step → Bool) : List Step → Option Nat
  | [] => none
  | s :: rest => if p s then some 0 else (firstIdx p rest).map (· + 1)

/-- Recognizes the durable commit of the director selection (the
`is_active := true` database write). -/
def isCommitStep : Step → Bool
  | .dbActivateCamera _ => true
  | _ => false

/-- Recognizes the fan-out `layout_update` control message. -/
def isFanoutStep : Step → Bool
  | .fanoutLayoutUpdate _ => true
  | _ => false

/-- Recognizes the broadcast-bridge `update_layout` dispatch. -/
def isBridgeStep : Step → Bool
  | .bridgeUpdateLayout _ => true
  | _ => false

/-! ## webrtc-rtmp-bridge edge function (src/supabase/functions/webrtc-rtmp-bridge/index.ts)

The bridge keeps a `Map` of sessions keyed by session id; we model it as a
list of session records. `startFFmpegProcess` only constructs a mock
process object in both the production and the development branch, so it
cannot fail; its try/catch is dead in the shipped code. -/

/-- A WebRTC-RTMP bridge session record (the fields the lifecycle logic
reads and writes; the static stream config is omitted). The status strings
used by the code are "created", "streaming", "stopped" and "error". -/
structure BridgeSession where
  id : String
  rtmpUrl : String
  streamKey : String
  status : String
  sdpOffer : Option String
  sdpAnswer : Option String
deriving Repr, DecidableEq

/-- Method `createSession`: inserts a fresh session with status "created". The
generated id is passed in explicitly (the code derives it from the clock
and a random suffix). -/
def createSession (sessionId rtmpUrl streamKey : String)
    (sessions : List BridgeSession) : List BridgeSession :=
  sessions ++ [{ id := sessionId, rtmpUrl := rtmpUrl, streamKey := streamKey,
                 status := "created", sdpOffer := none, sdpAnswer := none }]

/-- Method `generateProductionSDP`: builds the SDP answer string for a session.
The random ICE credentials and SSRC values are abstracted to a
deterministic rendering keyed by the session id. -/
def generateProductionSDP (sessionId : String) : String :=
  "v=0 sdp-answer " ++ sessionId

/-- Method `startStreaming(sessionId, sdpOffer)`: throws "Session not found" when
the id is unknown; otherwise starts the (mock) FFmpeg process, sets the
session status to "streaming", records offer and answer, and returns the
SDP answer. There is no check of the current session status. -/
def startStreaming (sessionId sdpOffer : String) (sessions : List BridgeSession) :
    Except String (String × List BridgeSession) :=
  match sessions.find? (fun s => s.id = sessionId) with
  | none => .error "Session not found"
  | some s =>
    let answer := generateProductionSDP sessionId
    let s1 := { s with status := "streaming", sdpOffer := some sdpOffer,
                       sdpAnswer := some answer }
    .ok (answer, sessions.map fun t => if t.id = sessionId then s1 else t)

/-- Method `stopStreaming(sessionId)`: throws "Session not found" when the id is
unknown; otherwise sets the session status to "stopped". -/
def stopStreaming (sessionId : String) (sessions : List BridgeSession) :
    Except String (List BridgeSession) :=
  match sessions.find? (fun s => s.id = sessionId) with
  | none => .error "Session not found"
  | some s =>
    let s1 := { s with status := "stopped" }
    .ok (sessions.map fun t => if t.id = sessionId then s1 else t)

/-! ## livekit-egress edge function (src/supabase/functions/livekit-egress/index.ts)

The function dispatches on `action` after validating `eventId` and the
LiveKit configuration. External HTTP calls and the database are modelled
by explicit inputs in `EgressEnv`. -/

/-- The HTTP response of the livekit-egress function, restricted to the
fields the clients read. -/
structure EgressResponse where
  status : Nat
  success : Bool
  error : Option String
  message : Option String
  egressId : Option String
  activeCamera : Option String
deriving Repr, DecidableEq

/-- The environment of one livekit-egress invocation: configuration
presence, stream keys, and the outcomes of the external LiveKit calls and
of the database writes. -/
structure EgressEnv where
  configOk : Bool
  youtubeKey : Option String
  twitchKey : Option String
  egressStartOk : Bool
  egressStartId : String
  layoutCallOk : Bool
  dbOk : Bool
deriving Repr, DecidableEq

/-- A 500 response carrying `{ error, success: false }`. -/
def egressErrorResponse (msg : String) : EgressResponse :=
  { status := 500, success := false, error := some msg, message := none,
    egressId := none, activeCamera := none }

/-- The livekit-egress request handler. Returns the response together
with the resulting events table. -/
def egressServe (env : EgressEnv) (eventId : Option String)
    (action : Option String) (activeCamera : Option String) (now : Nat)
    (events : List Event) : EgressResponse × List Event :=
  match eventId with
  | none => (egressErrorResponse "Missing eventId", events)
  | some eid =>
    if env.configOk = false then
      (egressErrorResponse "Missing LiveKit configuration", events)
    else if action = some "start" then
      if env.youtubeKey = none ∧ env.twitchKey = none then
        (egressErrorResponse "No stream keys configured for YouTube or Twitch", events)
      else if env.egressStartOk = false then
        (egressErrorResponse "Failed to start LiveKit egress", events)
      else if env.dbOk = false then
        (egressErrorResponse "Database update failed", events)
      else
        ({ status := 200, success := true, error := none, message := none,
           egressId := some env.egressStartId, activeCamera := none },
         events.map fun e =>
           if e.id = eid then
             { e with status := "live", mux_stream_id := some env.egressStartId,
                      updated_at := now }
           else e)
    else if action = some "update_layout" then
      match activeCamera with
      | none => (egressErrorResponse "Missing activeCamera for layout update", events)
      | some cam =>
        match events.find? (fun e => e.id = eid) with
        | none =>
          ({ status := 200, success := true, error := none,
             message := some "No active egress to update",
             egressId := none, activeCamera := none }, events)
        | some ev =>
          match ev.mux_stream_id with
          | none =>
            ({ status := 200, success := true, error := none,
               message := some "No active egress to update",
               egressId := none, activeCamera := none }, events)
          | some _ =>
            ({ status := 200, success := true, error := none, message := none,
               egressId := none, activeCamera := some cam }, events)
    else if action = some "stop" then
      if env.dbOk = false then
        (egressErrorResponse "Database update failed", events)
      else
        ({ status := 200, success := true, error := none, message := none,
           egressId := none, activeCamera := none },
         events.map fun e =>
           if e.id = eid then { e with status := "ended", updated_at := now } else e)
    else
      (egressErrorResponse "Invalid action", events)

/-! ## Director API endpoint selectActive -/

/-- A session as described by the spec's data model: `sessionId`,
`status`, nullable `activeSourceId`. -/
structure Session where
  sessionId : String
  status : String
  activeSourceId : Option String
deriving Repr, DecidableEq

/-- A source as described by the spec's data model, restricted to the
fields `selectActive` consults. -/
structure Source where
  sourceId : String
  sessionId : String
  connectionState : String
deriving Repr, DecidableEq

/-- The result of a `selectActive` request. -/
inductive SelectResult where
  | ok (activeSourceId : String)
  | notAuthorized
  | sourceNotAvailable
deriving Repr, DecidableEq

/-- The HTTP status code of a `selectActive` result
(`200` / `403 NotAuthorized` / `409 SourceNotAvailable`). -/
def SelectResult.httpStatus : SelectResult → Nat
  | .ok _ => 200
  | .notAuthorized => 403
  | .sourceNotAvailable => 409

/-- Modelled from the spec: the server-side director selectActive endpoint
(the `switch-camera` function invoked by the dashboard at
src/unnamed/part_002 line 355) is not among the sources; only its caller
is. Following the spec's contract: reject with `NotAuthorized` unless
`requesterRole = director`; reject with `SourceNotAvailable` unless the
requested source is `connected` in the session; otherwise commit
`activeSourceId` as a single atomic update. -/
def selectActive (sessionId requestedSourceId requesterRole : String)
    (sources : List Source) (sess : Session) : SelectResult × Session :=
  if requesterRole ≠ "director" then
    (.notAuthorized, sess)
  else if ¬ (sources.any fun s =>
      s.sourceId = requestedSourceId && s.sessionId = sessionId &&
      s.connectionState = "connected") then
    (.sourceNotAvailable, sess)
  else
    (.ok requestedSourceId, { sess with activeSourceId := some requestedSourceId })

/-! ## The selection/liveness invariant -/

/-- The invariant claimed of the cameras table: every camera marked as the
active selection is also marked live. -/
def activeImpliesLive (cams : List Camera) : Prop :=
  ∀ c ∈ cams, c.is_active = true → c.is_live = true

instance (cams : List Camera) : Decidable (activeImpliesLive cams) := by
  unfold activeImpliesLive; infer_instance

/-! # Theorems -/

/-- Claim C6: recording a heartbeat sets the camera's connection state to
connected (`is_live = true`) and updates its last-heartbeat timestamp, is
idempotent, changes no other field, and in particular never restores the
camera's active (selected) status: `is_active` is preserved pointwise for
every row, so a previously evicted camera comes back connected but not
selected. -/
theorem heartbeat_effect (cameraId : String) (now : Nat) (cams : List Camera) :
    heartbeat cameraId now (heartbeat cameraId now cams) = heartbeat cameraId now cams
    ∧ (∀ c ∈ cams, c.id = cameraId →
        { c with is_live := true, updated_at := now } ∈ heartbeat cameraId now cams)
    ∧ (∀ c ∈ cams, c.id ≠ cameraId → c ∈ heartbeat cameraId now cams)
    ∧ (heartbeat cameraId now cams).map
        (fun c => (c.id, c.event_id, c.device_label, c.is_active))
      = cams.map (fun c => (c.id, c.event_id, c.device_label, c.is_active)) := by
  refine ⟨?_, ?_, ?_, ?_⟩
  · unfold heartbeat
    rw [List.map_map]
    apply List.map_congr_left
    intro c _
    by_cases h : c.id = cameraId <;> simp [h, Function.comp]
  · intro c hc h
    have hmem := List.mem_map_of_mem
      (fun c => if c.id = cameraId then { c with is_live := true, updated_at := now } else c) hc
    simpa [heartbeat, h] using hmem
  · intro c hc h
    have hmem := List.mem_map_of_mem
      (fun c => if c.id = cameraId then { c with is_live := true, updated_at := now } else c) hc
    simpa [heartbeat, h] using hmem
  · unfold heartbeat
    rw [List.map_map]
    apply List.map_congr_left
    intro c _
    by_cases h : c.id = cameraId <;> simp [h, Function.comp]

/-- Witness for `heartbeat_effect` at a concrete evicted camera: the
heartbeat restores `is_live` but the row stays `is_active = false`. -/
theorem heartbeat_effect_witness :
    ({ id := "c1", event_id := "e1", device_label := "Cam 1", is_live := false,
       is_active := false, updated_at := 0 } : Camera).id = "c1"
    ∧ ({ id := "c1", event_id := "e1", device_label := "Cam 1", is_live := true,
         is_active := false, updated_at := 5 } : Camera) ∈
        heartbeat "c1" 5 [{ id := "c1", event_id := "e1", device_label := "Cam 1",
                            is_live := false, is_active := false, updated_at := 0 }] :=
  ⟨rfl,
   (heartbeat_effect "c1" 5 _).2.1
     { id := "c1", event_id := "e1", device_label := "Cam 1", is_live := false,
       is_active := false, updated_at := 0 } (by simp) rfl⟩

/-- Claim C5 counterexample: the cleanup sweep filters on
`is_live = true`, so a stale camera that is already marked not-live but is
still the active selection is not touched — its `is_active` flag survives
the sweep, contradicting the claim that eviction always clears the active
selection. Concrete input: camera `c1` of event `e1` with
`is_live = false`, `is_active = true`, `updated_at = 0`, swept at
`now = 1000000` (well past the 120000 ms threshold). -/
theorem cleanupStale_keeps_stale_active_counterexample :
    ¬ (∀ c ∈ ([{ id := "c1", event_id := "e1", device_label := "Cam 1",
                 is_live := false, is_active := true, updated_at := 0 }] : List Camera),
        c.event_id = "e1" → c.updated_at < 1000000 - staleWindowMs →
        ∀ c' ∈ cleanupStale "e1" 1000000
            [{ id := "c1", event_id := "e1", device_label := "Cam 1",
               is_live := false, is_active := true, updated_at := 0 }],
          c'.id = c.id →
            c'.is_live = false ∧ (c.is_active = true → c'.is_active = false)) := by
  decide

/-- Claim C5 amended: the cleanup sweep clears `is_live` and `is_active`
for a stale camera of the event only when the camera is currently marked
`is_live = true`; a camera already marked not-live (however stale, and
even if still the active selection) is left entirely unchanged. -/
theorem cleanupStale_effect (eventId : String) (now : Nat) (cams : List Camera)
    (c : Camera) (hc : c ∈ cams) :
    (c.event_id = eventId → c.updated_at < now - staleWindowMs → c.is_live = true →
      { c with is_live := false, is_active := false } ∈ cleanupStale eventId now cams)
    ∧ (c.is_live = false → c ∈ cleanupStale eventId now cams) := by
  constructor
  · intro h1 h2 h3
    have hmem := List.mem_map_of_mem
      (fun c => if c.event_id = eventId ∧ c.updated_at < now - staleWindowMs ∧ c.is_live = true
                then { c with is_live := false, is_active := false } else c) hc
    simpa [cleanupStale, h1, h2, h3] using hmem
  · intro h
    have hmem := List.mem_map_of_mem
      (fun c => if c.event_id = eventId ∧ c.updated_at < now - staleWindowMs ∧ c.is_live = true
                then { c with is_live := false, is_active := false } else c) hc
    simpa [cleanupStale, h] using hmem

/-- Witness for `cleanupStale_effect`: a live stale camera is evicted with
both flags cleared, while the not-live stale active camera of the
counterexample survives unchanged. -/
theorem cleanupStale_effect_witness :
    ({ id := "c2", event_id := "e1", device_label := "Cam 2", is_live := false,
       is_active := false, updated_at := 0 } : Camera) ∈
      cleanupStale "e1" 1000000
        [{ id := "c2", event_id := "e1", device_label := "Cam 2", is_live := true,
           is_active := true, updated_at := 0 }]
    ∧ ({ id := "c1", event_id := "e1", device_label := "Cam 1", is_live := false,
         is_active := true, updated_at := 0 } : Camera) ∈
      cleanupStale "e1" 1000000
        [{ id := "c1", event_id := "e1", device_label := "Cam 1", is_live := false,
           is_active := true, updated_at := 0 }] :=
  ⟨by
    have h := (cleanupStale_effect "e1" 1000000
      [{ id := "c2", event_id := "e1", device_label := "Cam 2", is_live := true,
         is_active := true, updated_at := 0 }]
      { id := "c2", event_id := "e1", device_label := "Cam 2", is_live := true,
        is_active := true, updated_at := 0 } (by simp)).1 rfl (by decide) rfl
    simpa using h,
   (cleanupStale_effect "e1" 1000000
      [{ id := "c1", event_id := "e1", device_label := "Cam 1", is_live := false,
         is_active := true, updated_at := 0 }]
      { id := "c1", event_id := "e1", device_label := "Cam 1", is_live := false,
        is_active := true, updated_at := 0 } (by simp)).2 rfl⟩

deriving instance DecidableEq for Except

/-- Claim C7 counterexample: `startStreaming` performs no state check, so
a session already in the "streaming" state is not rejected with
`AlreadyStreaming` — the renewed request succeeds and simply restarts the
session. Concrete input: session `s1` with `status = "streaming"`. -/
theorem startStreaming_accepts_streaming_counterexample :
    ¬ (({ id := "s1", rtmpUrl := "rtmp", streamKey := "k", status := "streaming",
          sdpOffer := none, sdpAnswer := none } : BridgeSession).status = "streaming" →
        startStreaming "s1" "offer1"
          [{ id := "s1", rtmpUrl := "rtmp", streamKey := "k", status := "streaming",
             sdpOffer := none, sdpAnswer := none }]
          = Except.error "AlreadyStreaming") := by
  decide

/-- Claim C7 amended: `startStreaming` validates only that the session
exists — an unknown id is rejected with "Session not found", while an
existing session is accepted in every state, including a session already
streaming, which is simply set to "streaming" again with the new offer. -/
theorem startStreaming_checks_only_existence (sessionId offer : String)
    (sessions : List BridgeSession) :
    (sessions.find? (fun s => s.id = sessionId) = none →
      startStreaming sessionId offer sessions = Except.error "Session not found")
    ∧ (∀ s, sessions.find? (fun s => s.id = sessionId) = some s →
        (startStreaming sessionId offer sessions).isOk = true) := by
  constructor
  · intro h
    simp [startStreaming, h]
  · intro s h
    simp [startStreaming, h, Except.isOk, Except.toBool]

/-- Witness for `startStreaming_checks_only_existence`: a missing session
is rejected; the concrete streaming session of the counterexample is
accepted. -/
theorem startStreaming_checks_only_existence_witness :
    startStreaming "s9" "offer1" [] = Except.error "Session not found"
    ∧ (startStreaming "s1" "offer1"
        [{ id := "s1", rtmpUrl := "rtmp", streamKey := "k", status := "streaming",
           sdpOffer := none, sdpAnswer := none }]).isOk = true :=
  ⟨(startStreaming_checks_only_existence "s9" "offer1" []).1 rfl,
   (startStreaming_checks_only_existence "s1" "offer1"
      [{ id := "s1", rtmpUrl := "rtmp", streamKey := "k", status := "streaming",
         sdpOffer := none, sdpAnswer := none }]).2
      { id := "s1", rtmpUrl := "rtmp", streamKey := "k", status := "streaming",
        sdpOffer := none, sdpAnswer := none } (by decide)⟩

/-- Claim C8: when the external egress-start call fails during a `start`
request, the function surfaces a failing (HTTP 500, `success = false`)
response and leaves the events table — in particular the session's durable
`status` — unchanged; conversely the events table can change (the status
being set to `live`) only when the external call succeeded. -/
theorem egress_start_failure_isolated (env : EgressEnv) (eid : String)
    (cam : Option String) (now : Nat) (events : List Event) :
    (env.egressStartOk = false →
      (egressServe env (some eid) (some "start") cam now events).1.success = false
      ∧ (egressServe env (some eid) (some "start") cam now events).1.status = 500
      ∧ (egressServe env (some eid) (some "start") cam now events).2 = events)
    ∧ ((egressServe env (some eid) (some "start") cam now events).2 ≠ events →
        env.egressStartOk = true) := by
  have hmain : env.egressStartOk = false →
      (egressServe env (some eid) (some "start") cam now events).1.success = false
      ∧ (egressServe env (some eid) (some "start") cam now events).1.status = 500
      ∧ (egressServe env (some eid) (some "start") cam now events).2 = events := by
    intro hfail
    unfold egressServe
    by_cases hcfg : env.configOk = false
    · simp [hcfg, egressErrorResponse]
    · by_cases hkeys : env.youtubeKey = none ∧ env.twitchKey = none
      · simp [hcfg, hkeys, egressErrorResponse]
      · simp [hcfg, hkeys, hfail, egressErrorResponse]
  refine ⟨hmain, ?_⟩
  intro hne
  by_cases h : env.egressStartOk = true
  · exact h
  · exact absurd (hmain (by simpa using h)).2.2 hne

/-- Witness for `egress_start_failure_isolated`: with the external call
failing, a concrete `start` request returns a 500 and the events table
keeps its `scheduled` status. -/
theorem egress_start_failure_isolated_witness :
    (egressServe
        { configOk := true, youtubeKey := some "yt", twitchKey := none,
          egressStartOk := false, egressStartId := "eg1", layoutCallOk := true,
          dbOk := true }
        (some "e1") (some "start") none 7
        [{ id := "e1", status := "scheduled", mux_stream_id := none, updated_at := 0 }]).1.status = 500
    ∧ (egressServe
        { configOk := true, youtubeKey := some "yt", twitchKey := none,
          egressStartOk := false, egressStartId := "eg1", layoutCallOk := true,
          dbOk := true }
        (some "e1") (some "start") none 7
        [{ id := "e1", status := "scheduled", mux_stream_id := none, updated_at := 0 }]).2
      = [{ id := "e1", status := "scheduled", mux_stream_id := none, updated_at := 0 }] :=
  ⟨((egress_start_failure_isolated
      { configOk := true, youtubeKey := some "yt", twitchKey := none,
        egressStartOk := false, egressStartId := "eg1", layoutCallOk := true,
        dbOk := true } "e1" none 7
      [{ id := "e1", status := "scheduled", mux_stream_id := none, updated_at := 0 }]).1 rfl).2.1,
   ((egress_start_failure_isolated
      { configOk := true, youtubeKey := some "yt", twitchKey := none,
        egressStartOk := false, egressStartId := "eg1", layoutCallOk := true,
        dbOk := true } "e1" none 7
      [{ id := "e1", status := "scheduled", mux_stream_id := none, updated_at := 0 }]).1 rfl).2.2⟩

/-- Claim C10: an `update_layout` request with a present `eventId` and
`activeCamera` always receives a success response (HTTP 200, no error
field) and never changes the events table — both when no egress id is
recorded for the event (the lookup shortcut) and when the external layout
call returns a non-OK status (which is only logged); the outcome is the
same for every value of `layoutCallOk`, so the caller can never observe a
bridge-update failure. Only the LiveKit configuration must be present. -/
theorem egress_update_layout_always_succeeds (env : EgressEnv) (eid cam : String)
    (now : Nat) (events : List Event) (hcfg : env.configOk = true) :
    (egressServe env (some eid) (some "update_layout") (some cam) now events).1.success = true
    ∧ (egressServe env (some eid) (some "update_layout") (some cam) now events).1.status = 200
    ∧ (egressServe env (some eid) (some "update_layout") (some cam) now events).1.error = none
    ∧ (egressServe env (some eid) (some "update_layout") (some cam) now events).2 = events := by
  unfold egressServe
  simp only [hcfg]
  norm_num
  cases hfind : events.find? (fun e => e.id = eid) with
  | none => simp
  | some ev => cases hmux : ev.mux_stream_id <;> simp [hmux]

/-- Witness for `egress_update_layout_always_succeeds`: with a recorded
egress id and a failing external layout call, the response is still a
200 success. -/
theorem egress_update_layout_always_succeeds_witness :
    (egressServe
        { configOk := true, youtubeKey := none, twitchKey := none,
          egressStartOk := true, egressStartId := "eg1", layoutCallOk := false,
          dbOk := true }
        (some "e1") (some "update_layout") (some "camera_cam_1") 7
        [{ id := "e1", status := "live", mux_stream_id := some "eg1", updated_at := 0 }]).1.success
      = true :=
  (egress_update_layout_always_succeeds
    { configOk := true, youtubeKey := none, twitchKey := none,
      egressStartOk := true, egressStartId := "eg1", layoutCallOk := false,
      dbOk := true } "e1" "camera_cam_1" 7
    [{ id := "e1", status := "live", mux_stream_id := some "eg1", updated_at := 0 }] rfl).1

/-- Claim C4: a `selectActive` request whose `requesterRole` is not
`director` is rejected with `NotAuthorized` (HTTP 403) and the session —
in particular its `activeSourceId` — is returned unchanged. Settled
against the spec-modelled endpoint `selectActive` (the server-side
`switch-camera` function is not among the sources). -/
theorem selectActive_rejects_non_director (sessionId sourceId role : String)
    (sources : List Source) (sess : Session) (hrole : role ≠ "director") :
    selectActive sessionId sourceId role sources sess = (SelectResult.notAuthorized, sess)
    ∧ (selectActive sessionId sourceId role sources sess).1.httpStatus = 403 := by
  constructor
  · simp [selectActive, hrole]
  · simp [selectActive, hrole, SelectResult.httpStatus]

/-- Witness for `selectActive_rejects_non_director`: a viewer's request on
a session with a connected source is rejected with a 403 and commits
nothing. -/
theorem selectActive_rejects_non_director_witness :
    selectActive "s1" "cam1" "viewer"
        [{ sourceId := "cam1", sessionId := "s1", connectionState := "connected" }]
        { sessionId := "s1", status := "live", activeSourceId := none }
      = (SelectResult.notAuthorized,
         { sessionId := "s1", status := "live", activeSourceId := none }) :=
  (selectActive_rejects_non_director "s1" "cam1" "viewer"
    [{ sourceId := "cam1", sessionId := "s1", connectionState := "connected" }]
    { sessionId := "s1", status := "live", activeSourceId := none } (by decide)).1

/-- Claim C2 counterexample: in `setActiveCamera` the durable commit (the
`is_active := true` database write) is NOT performed before the fan-out
`layout_update` message or before the broadcast-bridge `update_layout`
dispatch — the code publishes the fan-out message first, then dispatches
the bridge update, and only afterwards commits to the database. Concrete
input: event `e1`, identity `camera_cam_1` matching the camera labelled
"Cam 1", with streaming on; the commit is step 4 and the fan-out step 1. -/
theorem commit_not_first_counterexample :
    ¬ ((∀ ci fi,
          firstIdx isCommitStep (setActiveCamera "e1" "camera_cam_1" true false
            [{ id := "c1", event_id := "e1", device_label := "Cam 1",
               is_live := true, is_active := false, updated_at := 0 }]).1 = some ci →
          firstIdx isFanoutStep (setActiveCamera "e1" "camera_cam_1" true false
            [{ id := "c1", event_id := "e1", device_label := "Cam 1",
               is_live := true, is_active := false, updated_at := 0 }]).1 = some fi →
          ci < fi)
       ∧ (∀ ci bi,
          firstIdx isCommitStep (setActiveCamera "e1" "camera_cam_1" true false
            [{ id := "c1", event_id := "e1", device_label := "Cam 1",
               is_live := true, is_active := false, updated_at := 0 }]).1 = some ci →
          firstIdx isBridgeStep (setActiveCamera "e1" "camera_cam_1" true false
            [{ id := "c1", event_id := "e1", device_label := "Cam 1",
               is_live := true, is_active := false, updated_at := 0 }]).1 = some bi →
          ci < bi)) := by
  intro h
  exact absurd (h.1 4 1 (by decide) (by decide)) (by decide)

/-- Claim C2 amended: whenever `setActiveCamera` performs the durable
commit of the selection, the fan-out `layout_update` message was published
strictly before it, and, when a stream is running, the broadcast-bridge
`update_layout` call was also dispatched strictly before it — the reverse
of the claimed order. -/
theorem fanout_and_bridge_precede_commit (eventId identity : String)
    (streaming bridgeFails : Bool) (cams : List Camera) (ci : Nat)
    (hci : firstIdx isCommitStep
      (setActiveCamera eventId identity streaming bridgeFails cams).1 = some ci) :
    (∃ fi, firstIdx isFanoutStep
        (setActiveCamera eventId identity streaming bridgeFails cams).1 = some fi
      ∧ fi < ci)
    ∧ (streaming = true →
      ∃ bi, firstIdx isBridgeStep
          (setActiveCamera eventId identity streaming bridgeFails cams).1 = some bi
        ∧ bi < ci) := by
  cases hfind : findCameraRecord identity cams with
  | none =>
    cases streaming <;> cases bridgeFails <;>
      simp [setActiveCamera, hfind, firstIdx, isCommitStep] at hci
  | some rec =>
    cases streaming <;> cases bridgeFails <;>
      · simp [setActiveCamera, hfind, firstIdx, isCommitStep, isFanoutStep,
          isBridgeStep] at hci ⊢
        omega

/-- Witness for `fanout_and_bridge_precede_commit` at the concrete switch
of the counterexample: the commit is step 4, preceded by the fan-out
(step 1) and the bridge dispatch (step 2). -/
theorem fanout_and_bridge_precede_commit_witness :
    (∃ fi, firstIdx isFanoutStep (setActiveCamera "e1" "camera_cam_1" true false
        [{ id := "c1", event_id := "e1", device_label := "Cam 1",
           is_live := true, is_active := false, updated_at := 0 }]).1 = some fi
      ∧ fi < 4)
    ∧ (true = true →
      ∃ bi, firstIdx isBridgeStep (setActiveCamera "e1" "camera_cam_1" true false
          [{ id := "c1", event_id := "e1", device_label := "Cam 1",
             is_live := true, is_active := false, updated_at := 0 }]).1 = some bi
        ∧ bi < 4) :=
  fanout_and_bridge_precede_commit "e1" "camera_cam_1" true false
    [{ id := "c1", event_id := "e1", device_label := "Cam 1",
       is_live := true, is_active := false, updated_at := 0 }] 4 (by decide)

/-- Claim C3: when the broadcast-bridge layout-update invocation fails
during `setActiveCamera`, the run still publishes the fan-out
`layout_update` message, still commits the durable selection (the final
cameras table is identical to the one of a run whose bridge call
succeeds — so nothing is rolled back), the failure only adds a logged
warning step, and when a matching camera record exists the activating
database write is still performed. -/
theorem bridge_failure_is_nonfatal (eventId identity : String) (cams : List Camera) :
    (setActiveCamera eventId identity true true cams).2 =
      (setActiveCamera eventId identity true false cams).2
    ∧ Step.fanoutLayoutUpdate identity ∈ (setActiveCamera eventId identity true true cams).1
    ∧ Step.warnLayoutUpdateFailed ∈ (setActiveCamera eventId identity true true cams).1
    ∧ (∀ rec, findCameraRecord identity cams = some rec →
        Step.dbActivateCamera rec.id ∈ (setActiveCamera eventId identity true true cams).1
        ∧ (setActiveCamera eventId identity true true cams).2 =
            activateCamera rec.id (deactivateAll eventId cams)) := by
  cases hfind : findCameraRecord identity cams with
  | none =>
    refine ⟨by simp [setActiveCamera, hfind], by simp [setActiveCamera, hfind],
      by simp [setActiveCamera, hfind], ?_⟩
    intro rec hrec
    exact absurd hrec (by simp)
  | some rec =>
    refine ⟨by simp [setActiveCamera, hfind], by simp [setActiveCamera, hfind],
      by simp [setActiveCamera, hfind], ?_⟩
    intro r hr
    cases hr
    exact ⟨by simp [setActiveCamera, hfind], by simp [setActiveCamera, hfind]⟩

/-- Witness for `bridge_failure_is_nonfatal` at the concrete switch: with
the bridge call failing, the fan-out message is in the trace and the
activation write for camera `c1` is still performed. -/
theorem bridge_failure_is_nonfatal_witness :
    Step.fanoutLayoutUpdate "camera_cam_1" ∈ (setActiveCamera "e1" "camera_cam_1" true true
      [{ id := "c1", event_id := "e1", device_label := "Cam 1",
         is_live := true, is_active := false, updated_at := 0 }]).1
    ∧ Step.dbActivateCamera "c1" ∈ (setActiveCamera "e1" "camera_cam_1" true true
      [{ id := "c1", event_id := "e1", device_label := "Cam 1",
         is_live := true, is_active := false, updated_at := 0 }]).1 :=
  ⟨(bridge_failure_is_nonfatal "e1" "camera_cam_1"
      [{ id := "c1", event_id := "e1", device_label := "Cam 1",
         is_live := true, is_active := false, updated_at := 0 }]).2.1,
   ((bridge_failure_is_nonfatal "e1" "camera_cam_1"
      [{ id := "c1", event_id := "e1", device_label := "Cam 1",
         is_live := true, is_active := false, updated_at := 0 }]).2.2.2
      { id := "c1", event_id := "e1", device_label := "Cam 1",
        is_live := true, is_active := false, updated_at := 0 } (by decide)).1⟩

/-- Claim C1 counterexample: director selection does not check the
connection state of the selected camera, so it can break the invariant
"every active camera is live". Concrete input: camera `c1` of event `e1`
with `is_live = false` satisfies the invariant (nothing is active), yet
after `setActiveCamera` selects it the table holds an active, not-live
camera. -/
theorem selection_breaks_invariant_counterexample :
    activeImpliesLive
      [{ id := "c1", event_id := "e1", device_label := "Cam 1",
         is_live := false, is_active := false, updated_at := 0 }]
    ∧ ¬ activeImpliesLive (setActiveCamera "e1" "camera_cam_1" false false
        [{ id := "c1", event_id := "e1", device_label := "Cam 1",
           is_live := false, is_active := false, updated_at := 0 }]).2 := by
  decide

/-- Claim C1 amended: the invariant "every camera with `is_active = true`
also has `is_live = true`" is preserved by the heartbeat, disconnect and
cleanup-sweep operations, and by director selection under the additional
hypothesis that every camera row carrying the selected record's id is
live — the code itself performs no such connectivity check, so selecting a
not-live camera violates the invariant (see the counterexample). -/
theorem invariant_preservation (cameraId eventId identity : String) (now : Nat)
    (streaming bridgeFails : Bool) (cams : List Camera)
    (hinv : activeImpliesLive cams) :
    activeImpliesLive (heartbeat cameraId now cams)
    ∧ activeImpliesLive (disconnect cameraId now cams)
    ∧ activeImpliesLive (cleanupStale eventId now cams)
    ∧ (∀ rec, findCameraRecord identity cams = some rec →
        (∀ c ∈ cams, c.id = rec.id → c.is_live = true) →
        activeImpliesLive
          (setActiveCamera eventId identity streaming bridgeFails cams).2) := by
  refine ⟨?_, ?_, ?_, ?_⟩
  · intro c' hc' hact
    obtain ⟨c, hc, rfl⟩ := List.mem_map.mp hc'
    by_cases h : c.id = cameraId
    · simp [h]
    · simp [h] at hact ⊢
      exact hinv c hc hact
  · intro c' hc' hact
    obtain ⟨c, hc, rfl⟩ := List.mem_map.mp hc'
    by_cases h : c.id = cameraId
    · simp [h] at hact
    · simp [h] at hact ⊢
      exact hinv c hc hact
  · intro c' hc' hact
    obtain ⟨c, hc, rfl⟩ := List.mem_map.mp hc'
    by_cases h : c.event_id = eventId ∧ c.updated_at < now - staleWindowMs ∧ c.is_live = true
    · simp [h] at hact
    · simp [h] at hact ⊢
      exact hinv c hc hact
  · intro rec hrec hlive
    have hout : (setActiveCamera eventId identity streaming bridgeFails cams).2 =
        activateCamera rec.id (deactivateAll eventId cams) := by
      simp [setActiveCamera, hrec]
    rw [hout]
    intro c' hc' hact
    rw [activateCamera, deactivateAll, List.map_map] at hc'
    obtain ⟨c, hc, rfl⟩ := List.mem_map.mp hc'
    by_cases hev : c.event_id = eventId
    · by_cases hid : c.id = rec.id
      · simp [Function.comp, hev, hid] at hact ⊢
        exact hlive c hc hid
      · simp [Function.comp, hev, hid] at hact
    · by_cases hid : c.id = rec.id
      · simp [Function.comp, hev, hid] at hact ⊢
        exact hlive c hc hid
      · simp [Function.comp, hev, hid] at hact ⊢
        exact hinv c hc hact

/-- Witness for `invariant_preservation` at a two-camera table satisfying
the invariant, selecting the live camera `c1`. -/
theorem invariant_preservation_witness :
    activeImpliesLive (heartbeat "c2" 9
      [{ id := "c1", event_id := "e1", device_label := "Cam 1",
         is_live := true, is_active := true, updated_at := 0 },
       { id := "c2", event_id := "e1", device_label := "Cam 2",
         is_live := true, is_active := false, updated_at := 0 }])
    ∧ activeImpliesLive (setActiveCamera "e1" "camera_cam_1" false false
      [{ id := "c1", event_id := "e1", device_label := "Cam 1",
         is_live := true, is_active := true, updated_at := 0 },
       { id := "c2", event_id := "e1", device_label := "Cam 2",
         is_live := true, is_active := false, updated_at := 0 }]).2 := by
  have h := invariant_preservation "c2" "e1" "camera_cam_1" 9 false false
    [{ id := "c1", event_id := "e1", device_label := "Cam 1",
       is_live := true, is_active := true, updated_at := 0 },
     { id := "c2", event_id := "e1", device_label := "Cam 2",
       is_live := true, is_active := false, updated_at := 0 }] (by decide)
  exact ⟨h.1, h.2.2.2
    { id := "c1", event_id := "e1", device_label := "Cam 1",
      is_live := true, is_active := true, updated_at := 0 } (by decide)
    (by decide)⟩

/-- Claim C9: the track-unpublished handler writes only `is_live := false`
and `updated_at` on matching cameras — `is_active`, `id`, `event_id` and
`device_label` are preserved for every row, so a camera whose video track
is unpublished can remain the active selection; the participant-left and
room-finished handlers clear both `is_live` and `is_active` for matching
cameras, and every other webhook handler preserves `is_active` as well. -/
theorem trackUnpublished_frame_effect (tt ident room : String) (now : Nat)
    (st : DbState) :
    (handleTrackUnpublished tt ident room now st).events = st.events
    ∧ (handleTrackUnpublished tt ident room now st).cameras.map
        (fun c => (c.id, c.event_id, c.device_label, c.is_active))
      = st.cameras.map (fun c => (c.id, c.event_id, c.device_label, c.is_active))
    ∧ (tt = "video" → strStartsWith ident "camera_" = true →
        ∀ c ∈ st.cameras,
          webhookCamMatch (roomEventId room) (identityDeviceLabel ident) c = true →
          { c with is_live := false, updated_at := now } ∈
            (handleTrackUnpublished tt ident room now st).cameras)
    ∧ (strStartsWith ident "camera_" = true →
        ∀ c ∈ st.cameras,
          webhookCamMatch (roomEventId room) (identityDeviceLabel ident) c = true →
          { c with is_live := false, is_active := false, updated_at := now } ∈
            (handleParticipantLeft ident room now st).cameras)
    ∧ (∀ c ∈ st.cameras, c.event_id = roomEventId room →
        { c with is_live := false, is_active := false, updated_at := now } ∈
          (handleRoomFinished room now st).cameras)
    ∧ (handleTrackPublished tt ident room now st).cameras.map (fun c => c.is_active)
      = st.cameras.map (fun c => c.is_active)
    ∧ (handleParticipantJoined ident room now st).cameras.map (fun c => c.is_active)
      = st.cameras.map (fun c => c.is_active)
    ∧ (handleRoomStarted room now st).cameras = st.cameras
    ∧ (handleEgressStarted room now st).cameras = st.cameras
    ∧ (handleEgressEnded room now st).cameras = st.cameras := by
  refine ⟨?_, ?_, ?_, ?_, ?_, ?_, ?_, by simp [handleRoomStarted],
    by simp [handleEgressStarted], by simp [handleEgressEnded]⟩
  · by_cases h : tt = "video" && strStartsWith ident "camera_" <;>
      simp [handleTrackUnpublished, h]
  · by_cases h : tt = "video" && strStartsWith ident "camera_"
    · simp only [handleTrackUnpublished, h, if_true]
      rw [List.map_map]
      apply List.map_congr_left
      intro c _
      by_cases hm : webhookCamMatch (roomEventId room) (identityDeviceLabel ident) c <;>
        simp [hm, Function.comp]
    · simp [handleTrackUnpublished, h]
  · intro h1 h2 c hc hm
    have hg : (tt = "video" && strStartsWith ident "camera_") = true := by
      simp [h1, h2]
    have hmem := List.mem_map_of_mem
      (fun c => if webhookCamMatch (roomEventId room) (identityDeviceLabel ident) c
                then { c with is_live := false, updated_at := now } else c) hc
    simpa [handleTrackUnpublished, hg, hm] using hmem
  · intro h2 c hc hm
    have hmem := List.mem_map_of_mem
      (fun c => if webhookCamMatch (roomEventId room) (identityDeviceLabel ident) c
                then { c with is_live := false, is_active := false, updated_at := now }
                else c) hc
    simpa [handleParticipantLeft, h2, hm] using hmem
  · intro c hc hev
    have hmem := List.mem_map_of_mem
      (fun c => if c.event_id = roomEventId room
                then { c with is_live := false, is_active := false, updated_at := now }
                else c) hc
    simpa [handleRoomFinished, hev] using hmem
  · by_cases h : tt = "video" && strStartsWith ident "camera_"
    · simp only [handleTrackPublished, h, if_true]
      rw [List.map_map]
      apply List.map_congr_left
      intro c _
      by_cases hm : webhookCamMatch (roomEventId room) (identityDeviceLabel ident) c <;>
        simp [hm, Function.comp]
    · simp [handleTrackPublished, h]
  · by_cases h : strStartsWith ident "camera_"
    · simp only [handleParticipantJoined, h, if_true]
      rw [List.map_map]
      apply List.map_congr_left
      intro c _
      by_cases hm : webhookCamMatch (roomEventId room) (identityDeviceLabel ident) c <;>
        simp [hm, Function.comp]
    · simp [handleParticipantJoined, h]

/-- Witness for `trackUnpublished_frame_effect`: unpublishing the video
track of the currently active camera marks it not-live while it stays the
active selection. -/
theorem trackUnpublished_frame_effect_witness :
    ({ id := "c1", event_id := "e1", device_label := "Cam 1",
       is_live := false, is_active := true, updated_at := 9 } : Camera) ∈
      (handleTrackUnpublished "video" "camera_cam_1" "event_e1" 9
        { events := [], cameras :=
          [{ id := "c1", event_id := "e1", device_label := "Cam 1",
             is_live := true, is_active := true, updated_at := 0 }] }).cameras :=
  (trackUnpublished_frame_effect "video" "camera_cam_1" "event_e1" 9
    { events := [], cameras :=
      [{ id := "c1", event_id := "e1", device_label := "Cam 1",
         is_live := true, is_active := true, updated_at := 0 }] }).2.2.1
    rfl rfl
    { id := "c1", event_id := "e1", device_label := "Cam 1",
      is_live := true, is_active := true, updated_at := 0 } (by simp) (by decide)

end Sportscast
